import Mathlib

/-!
Shallow embedding of the AWS S3 Bucket Auditor core
(`internal/awsutils/s3.go`, `internal/config/config.go`,
`internal/audit/report.go`) in Lean 4.

Modelling conventions:
* Go `error` values are modelled by their message strings (`GoError`).
* A Go remote call returning `(T, error)` where exactly one side is
  meaningful is an `Except GoError T` held in a client record; a Go
  function that returns both a value and an error (e.g. `("Not Enabled",
  err)`) is a pair `T × Option GoError`.
* Go pointers to structs/bools become `Option`; `aws.ToBool` is `awsToBool`
  (dereference with `false` for `nil`).
* `time.Duration` values are integers (seconds for the Macie timeout,
  opaque units for `AuditDuration`).
* The Macie poll loop (`select` over a 30-second ticker and a `time.After`
  timeout) is modelled by delivering events in time order: the describe
  call number `k` (0-based) happens at `30*(k+1)` seconds iff
  `30*(k+1) ≤ timeoutSec`, otherwise the timeout channel fires first.
  When both channels become ready at the same instant Go's `select`
  chooses randomly; the model resolves that tie in favour of the ticker,
  which no verified property depends on.
* Side effects that the properties mention (which remote endpoints were
  called) are made observable by returning an explicit call trace.
-/

namespace S3Auditor

/-- Go error values, modelled by their message strings. -/
abbrev GoError := String

/-- Result of a Go remote call returning `(T, error)`. -/
abbrev GoResult (α : Type) := Except GoError α

/-- Model of `aws.ToBool` on a `*bool`: dereference, `nil` reads as `false`. -/
def awsToBool (b : Option Bool) : Bool := b.getD false

/-! ## S3 data model (the fields of the SDK outputs that s3.go reads) -/

structure PublicAccessBlockConfiguration where
  blockPublicAcls : Option Bool
  blockPublicPolicy : Option Bool
  ignorePublicAcls : Option Bool
  restrictPublicBuckets : Option Bool
deriving Repr, DecidableEq

structure GetPublicAccessBlockOutput where
  publicAccessBlockConfiguration : Option PublicAccessBlockConfiguration
deriving Repr, DecidableEq

structure Grantee where
  uri : Option String
deriving Repr, DecidableEq

structure Grant where
  grantee : Option Grantee
deriving Repr, DecidableEq

structure GetBucketAclOutput where
  grants : List Grant
deriving Repr, DecidableEq

structure ServerSideEncryptionByDefault where
  sseAlgorithm : String
deriving Repr, DecidableEq

structure ServerSideEncryptionRule where
  applyServerSideEncryptionByDefault : ServerSideEncryptionByDefault
deriving Repr, DecidableEq

structure ServerSideEncryptionConfiguration where
  rules : List ServerSideEncryptionRule
deriving Repr, DecidableEq

structure GetBucketEncryptionOutput where
  serverSideEncryptionConfiguration : ServerSideEncryptionConfiguration
deriving Repr, DecidableEq

structure GetBucketVersioningOutput where
  status : String
deriving Repr, DecidableEq

structure GetBucketLocationOutput where
  locationConstraint : String
deriving Repr, DecidableEq

/-- The S3 client, as seen by one bucket's audit: the response each remote
call would produce for that bucket (the remote state is fixed during one
call, as in the mocked unit tests). -/
structure S3Client where
  getBucketLocation : GoResult GetBucketLocationOutput
  getPublicAccessBlock : GoResult GetPublicAccessBlockOutput
  getBucketAcl : GoResult GetBucketAclOutput
  getBucketEncryption : GoResult GetBucketEncryptionOutput
  getBucketVersioning : GoResult GetBucketVersioningOutput

/-! ## awsutils/s3.go -/

/-- `GetBucketRegion`: empty location constraint normalizes to us-east-1. -/
def GetBucketRegion (c : S3Client) : String × Option GoError :=
  match c.getBucketLocation with
  | .error e => ("", some e)
  | .ok out =>
    if out.locationConstraint = "" then ("us-east-1", none)
    else (out.locationConstraint, none)

def allUsersURI : String := "http://acs.amazonaws.com/groups/global/AllUsers"

def authenticatedUsersURI : String :=
  "http://acs.amazonaws.com/groups/global/AuthenticatedUsers"

/-- The grant test from the loop body of `IsBucketPublic`:
`grant.Grantee != nil && grant.Grantee.URI != nil` and the URI is one of
the two public group URIs. -/
def grantIsPublic (g : Grant) : Bool :=
  match g.grantee with
  | none => false
  | some grantee =>
    match grantee.uri with
    | none => false
    | some uri => uri == allUsersURI || uri == authenticatedUsersURI

/-- The short-circuit condition of `IsBucketPublic`: the public-access-block
call succeeded, the configuration is non-nil, and all four flags dereference
to true. -/
def pabAllBlocked (c : S3Client) : Bool :=
  match c.getPublicAccessBlock with
  | .error _ => false
  | .ok out =>
    match out.publicAccessBlockConfiguration with
    | none => false
    | some cfg =>
      awsToBool cfg.blockPublicAcls && awsToBool cfg.blockPublicPolicy &&
      awsToBool cfg.ignorePublicAcls && awsToBool cfg.restrictPublicBuckets

/-- `IsBucketPublic`. The first component is the Go return value
`(bool, error)`; the second records whether `GetBucketAcl` was called. -/
def IsBucketPublic (c : S3Client) : (Bool × Option GoError) × Bool :=
  if pabAllBlocked c then ((false, none), false)
  else
    match c.getBucketAcl with
    | .error e => ((false, some e), true)
    | .ok acl => ((acl.grants.any grantIsPublic, none), true)

/-- `GetBucketEncryption`: on error the Go function returns the pair
`("Not Enabled", err)` — note the error is returned, not swallowed. -/
def GetBucketEncryption (c : S3Client) : String × Option GoError :=
  match c.getBucketEncryption with
  | .error e => ("Not Enabled", some e)
  | .ok out =>
    match out.serverSideEncryptionConfiguration.rules with
    | [] => ("Not Enabled", none)
    | r :: _ => (r.applyServerSideEncryptionByDefault.sseAlgorithm, none)

/-- `GetBucketVersioning`. -/
def GetBucketVersioning (c : S3Client) : String × Option GoError :=
  match c.getBucketVersioning with
  | .error e => ("Unknown", some e)
  | .ok out =>
    if out.status = "Enabled" then ("Enabled", none)
    else ("Disabled", none)

/-! ## config/config.go -/

/-- Model of Go `strconv.Atoi`: an optional sign followed by at least one
decimal digit (64-bit range overflow is not modelled; the audited inputs
are small). -/
def goAtoi (s : String) : Option Int :=
  let signAndDigits : Int × List Char :=
    match s.data with
    | '+' :: rest => (1, rest)
    | '-' :: rest => (-1, rest)
    | cs => (1, cs)
  match signAndDigits with
  | (sign, digits) =>
    if digits.isEmpty then none
    else if digits.all Char.isDigit then
      some (sign * (digits.foldl (fun acc c => 10 * acc + (c.toNat - 48)) 0 : Nat))
    else none

/-- `defaultMacieTimeout = 40 * time.Minute`, in seconds. -/
def defaultMacieTimeoutSec : Int := 40 * 60

/-- `GetMacieTimeout`, in seconds. The argument is the value of the
`MACIE_JOB_TIMEOUT_MINUTES` environment variable (`os.Getenv` returns `""`
when the variable is absent). -/
def GetMacieTimeout (timeoutStr : String) : Int :=
  if timeoutStr = "" then defaultMacieTimeoutSec
  else
    match goAtoi timeoutStr with
    | none => defaultMacieTimeoutSec
    | some n => n * 60

/-! ## Macie classification model (audit/report.go, checkSensitiveData) -/

/-- Macie job statuses; `checkSensitiveData` distinguishes Complete and the
three failure statuses, and keeps polling on anything else (e.g. Running or
Idle). -/
inductive JobStatus where
  | running
  | complete
  | userPaused
  | cancelled
  | paused
  | idle
deriving Repr, DecidableEq

/-- The status test of the `else if` branch in the poll loop. -/
def isFailedStatus (s : JobStatus) : Bool :=
  s == .userPaused || s == .cancelled || s == .paused

structure STSClient where
  getCallerIdentity : GoResult String

structure Finding where
  id : String
deriving Repr, DecidableEq

/-- The Macie client as seen by one bucket's audit. The request name passed
to `CreateClassificationJob` is advisory (the service assigns the
authoritative JobId), so the creation response does not depend on it;
`describeClassificationJob jobId k` is the status the service reports at
the k-th poll (the job evolves over time); `listFindings jobId` is the
response to listing findings filtered by `classificationDetails.jobId = jobId`. -/
structure MacieClient where
  createClassificationJob : GoResult String
  describeClassificationJob : String → Nat → GoResult JobStatus
  listFindings : String → GoResult (List String)
  getFindings : List String → GoResult (List Finding)

/-- One remote call issued by `checkSensitiveData`, in order. -/
inductive CallEvent where
  | getCallerIdentity
  | createClassificationJob (requestName : String)
  | describeClassificationJob (jobId : String) (poll : Nat)
  | listFindings (jobId : String)
  | getFindings (findingIds : List String)
deriving Repr, DecidableEq

/-- Outcome of the poll loop; `polls` counts the describe calls issued. -/
inductive PollOutcome where
  | timedOut (polls : Nat)
  | statusQueryError (e : GoError) (polls : Nat)
  | jobFailed (polls : Nat)
  | completed (polls : Nat)
deriving Repr, DecidableEq

/-- The poll loop body, driven by the number of ticker ticks that fit before
the timeout channel fires (see the timing model in the header comment).
`k` is the index of the next describe call. -/
def pollLoopAux (describe : Nat → GoResult JobStatus) : Nat → Nat → PollOutcome
  | 0, k => .timedOut k
  | n + 1, k =>
    match describe k with
    | .error e => .statusQueryError e (k + 1)
    | .ok s =>
      if s = JobStatus.complete then .completed (k + 1)
      else if isFailedStatus s then .jobFailed (k + 1)
      else pollLoopAux describe n (k + 1)

/-- Number of 30-second ticks delivered before the timeout channel fires:
describe call `k` (0-based) happens at `30*(k+1)` seconds, which precedes a
timeout of `timeoutSec` iff `30*(k+1) ≤ timeoutSec`. A non-positive timeout
fires before the first tick. -/
def maxPolls (timeoutSec : Int) : Nat := timeoutSec.toNat / 30

/-- The `select` poll loop of `checkSensitiveData`. -/
def pollLoop (timeoutSec : Int) (describe : Nat → GoResult JobStatus) : PollOutcome :=
  pollLoopAux describe (maxPolls timeoutSec) 0

/-- Error message of the timeout branch (report.go line 182): a constant
string, the job id does not appear in it. -/
def timeoutErrorMessage : String :=
  "timeout waiting for Macie classification job completion"

/-- Error message of the failed-status branch (report.go line 205). -/
def jobFailedMessage : String := "Macie classification job failed"

/-- The advisory request name: `fmt.Sprintf("s3-audit-%s-%d", bucketName,
time.Now().Unix())`. -/
def jobRequestName (bucketName : String) (nowUnix : Int) : String :=
  "s3-audit-" ++ bucketName ++ "-" ++ toString nowUnix

/-- Trace of the describe calls issued by a run of the poll loop. -/
def describeEvents (jobId : String) (polls : Nat) : List CallEvent :=
  (List.range polls).map (CallEvent.describeClassificationJob jobId)

/-- `checkSensitiveData`: the first component is the Go return value
`(bool, error)`, the second the trace of remote calls issued. -/
def checkSensitiveData (stsClient : STSClient) (macieClient : MacieClient)
    (bucketName : String) (nowUnix : Int) (timeoutSec : Int) :
    (Bool × Option GoError) × List CallEvent :=
  match stsClient.getCallerIdentity with
  | .error e =>
      ((false, some ("Error: failed to retrieve account ID: " ++ e)),
       [.getCallerIdentity])
  | .ok _account =>
    let requestName := jobRequestName bucketName nowUnix
    match macieClient.createClassificationJob with
    | .error e =>
        ((false, some ("Error: failed to create Macie classification job: " ++ e)),
         [.getCallerIdentity, .createClassificationJob requestName])
    | .ok jobId =>
      let base : List CallEvent :=
        [.getCallerIdentity, .createClassificationJob requestName]
      match pollLoop timeoutSec (macieClient.describeClassificationJob jobId) with
      | .timedOut polls =>
          ((false, some timeoutErrorMessage), base ++ describeEvents jobId polls)
      | .statusQueryError e polls =>
          ((false, some ("Error: failed to get job status: " ++ e)),
           base ++ describeEvents jobId polls)
      | .jobFailed polls =>
          ((false, some jobFailedMessage), base ++ describeEvents jobId polls)
      | .completed polls =>
        let afterPoll := base ++ describeEvents jobId polls ++ [CallEvent.listFindings jobId]
        match macieClient.listFindings jobId with
        | .error e =>
            ((false, some ("Error: failed to list Macie findings: " ++ e)), afterPoll)
        | .ok findingIds =>
          if findingIds.length = 0 then ((false, none), afterPoll)
          else
            match macieClient.getFindings findingIds with
            | .error e =>
                ((false, some ("Error: failed to get findings details: " ++ e)),
                 afterPoll ++ [CallEvent.getFindings findingIds])
            | .ok _findings =>
                ((true, none), afterPoll ++ [CallEvent.getFindings findingIds])

/-! ## models/bucket.go and audit/report.go (AuditBucket) -/

structure BucketInfo where
  name : String
  region : String
  isPublic : Bool
  encryption : String
  versioningStatus : String
  sensitiveData : Bool
  auditDuration : Int
deriving Repr, DecidableEq

structure Scanner where
  s3Client : S3Client
  macieClient : MacieClient
  stsClient : STSClient

/-- The body of the goroutine spawned by `AuditBucket`: runs the five checks
in sequence, returning early with the logged error message (which carries
the bucket name) when any check fails, and otherwise the finalized
`BucketInfo` handed to `PrintBucketReport`. `durNanos` stands for
`time.Since(startTime)`. -/
def auditBucketBody (s : Scanner) (bucketName : String)
    (nowUnix timeoutSec durNanos : Int) : Except String BucketInfo :=
  match GetBucketRegion s.s3Client with
  | (_, some e) =>
      .error ("Error: Unable to get region for bucket " ++ bucketName ++ ": " ++ e)
  | (region, none) =>
    match (IsBucketPublic s.s3Client).1 with
    | (_, some e) =>
        .error ("Error: Unable to check public access for bucket " ++ bucketName ++ ": " ++ e)
    | (isPub, none) =>
      match GetBucketEncryption s.s3Client with
      | (_, some e) =>
          .error ("Error: Unable to get encryption for bucket " ++ bucketName ++ ": " ++ e)
      | (encryption, none) =>
        match GetBucketVersioning s.s3Client with
        | (_, some e) =>
            .error ("Error: Unable to get versioning status for bucket " ++ bucketName ++ ": " ++ e)
        | (versioningStatus, none) =>
          match (checkSensitiveData s.stsClient s.macieClient bucketName nowUnix timeoutSec).1 with
          | (_, some e) =>
              .error ("Error: Unable to check sensitive data for bucket " ++ bucketName ++ ": " ++ e)
          | (sensitiveData, none) =>
            .ok { name := bucketName, region := region, isPublic := isPub,
                  encryption := encryption, versioningStatus := versioningStatus,
                  sensitiveData := sensitiveData, auditDuration := durNanos }

/-- `AuditBucket`: spawns the body, waits for it, and returns `nil`
unconditionally (report.go line 123). The first component is the Go return
value; the second is what the goroutine did (error logged, or report
printed). -/
def AuditBucket (s : Scanner) (bucketName : String)
    (nowUnix timeoutSec durNanos : Int) :
    Option GoError × Except String BucketInfo :=
  (none, auditBucketBody s bucketName nowUnix timeoutSec durNanos)

/-! ## Substring containment (for statements about error-message content) -/

/-- `isPrefixList n h`: `n` is a prefix of `h` (by character equality). -/
def isPrefixList : List Char → List Char → Bool
  | [], _ => true
  | _ :: _, [] => false
  | a :: as, b :: bs => a == b && isPrefixList as bs

/-- `occursIn n h`: `n` occurs contiguously inside `h`. -/
def occursIn (needle : List Char) : List Char → Bool
  | [] => isPrefixList needle []
  | b :: bs => isPrefixList needle (b :: bs) || occursIn needle bs

/-- `containsSub needle hay`: `needle` is a substring of `hay`. -/
def containsSub (needle hay : String) : Bool := occursIn needle.data hay.data

/-! ## Claim-side vocabulary -/

/-- The URI of a grant's grantee, when both are present. -/
def granteeURI (g : Grant) : Option String := g.grantee.bind Grantee.uri

/-- Some grant of the ACL names the AllUsers or AuthenticatedUsers group. -/
def hasPublicGrant (acl : GetBucketAclOutput) : Prop :=
  ∃ g ∈ acl.grants,
    granteeURI g = some allUsersURI ∨ granteeURI g = some authenticatedUsersURI

instance (acl : GetBucketAclOutput) : Decidable (hasPublicGrant acl) := by
  unfold hasPublicGrant; exact List.decidableBEx _ acl.grants

/-! ## Concrete fixtures (used by witnesses and counterexamples) -/

def stsOk : STSClient := ⟨.ok "123456789012"⟩

/-- Macie client whose job completes on the first poll with one finding. -/
def macieComplete : MacieClient :=
  { createClassificationJob := .ok "job-123"
    describeClassificationJob := fun _ _ => .ok .complete
    listFindings := fun _ => .ok ["f1"]
    getFindings := fun _ => .ok [⟨"f1"⟩] }

/-- Macie client whose job completes on the first poll with no findings. -/
def macieCompleteEmpty : MacieClient :=
  { createClassificationJob := .ok "job-123"
    describeClassificationJob := fun _ _ => .ok .complete
    listFindings := fun _ => .ok []
    getFindings := fun _ => .ok [] }

/-- Macie client whose job is cancelled at the first poll. -/
def macieCancelled : MacieClient :=
  { createClassificationJob := .ok "job-123"
    describeClassificationJob := fun _ _ => .ok .cancelled
    listFindings := fun _ => .ok []
    getFindings := fun _ => .ok [] }

/-- Macie client whose job reports Running at every poll. -/
def macieRunning : MacieClient :=
  { createClassificationJob := .ok "job-123"
    describeClassificationJob := fun _ _ => .ok .running
    listFindings := fun _ => .ok []
    getFindings := fun _ => .ok [] }

/-- Fully restrictive public-access-block configuration. -/
def pabFullBlock : PublicAccessBlockConfiguration :=
  ⟨some true, some true, some true, some true⟩

/-- Fully permissive public-access-block configuration. -/
def pabNoBlock : PublicAccessBlockConfiguration :=
  ⟨some false, some false, some false, some false⟩

/-- ACL with a single AllUsers grant. -/
def aclPublic : GetBucketAclOutput := ⟨[⟨some ⟨some allUsersURI⟩⟩]⟩

/-- S3 state of a locked-down bucket: block flags all true, AES256,
versioning Enabled. -/
def s3AllOk : S3Client :=
  { getBucketLocation := .ok ⟨"us-west-2"⟩
    getPublicAccessBlock := .ok ⟨some pabFullBlock⟩
    getBucketAcl := .ok ⟨[]⟩
    getBucketEncryption := .ok ⟨⟨[⟨⟨"AES256"⟩⟩]⟩⟩
    getBucketVersioning := .ok ⟨"Enabled"⟩ }

/-- The provider's error for a bucket with no encryption configuration. -/
def noEncError : GoError :=
  "ServerSideEncryptionConfigurationNotFoundError: The server side encryption configuration was not found"

/-- S3 state of a public bucket: block flags false, AllUsers ACL grant,
no encryption configuration (the call errors), empty versioning status. -/
def s3PublicAcl : S3Client :=
  { getBucketLocation := .ok ⟨""⟩
    getPublicAccessBlock := .ok ⟨some pabNoBlock⟩
    getBucketAcl := .ok aclPublic
    getBucketEncryption := .error noEncError
    getBucketVersioning := .ok ⟨""⟩ }

/-- S3 state whose location call is denied. -/
def s3RegionErr : S3Client :=
  { getBucketLocation := .error "AccessDenied: access denied"
    getPublicAccessBlock := .ok ⟨some pabFullBlock⟩
    getBucketAcl := .ok ⟨[]⟩
    getBucketEncryption := .ok ⟨⟨[]⟩⟩
    getBucketVersioning := .ok ⟨""⟩ }

/-- S3 state whose versioning call fails. -/
def s3VersErr : S3Client :=
  { getBucketLocation := .ok ⟨""⟩
    getPublicAccessBlock := .ok ⟨some pabFullBlock⟩
    getBucketAcl := .ok ⟨[]⟩
    getBucketEncryption := .ok ⟨⟨[]⟩⟩
    getBucketVersioning := .error "ServiceUnavailable" }

def scAllOk : Scanner := ⟨s3AllOk, macieCompleteEmpty, stsOk⟩

def scPublicNoEnc : Scanner := ⟨s3PublicAcl, macieComplete, stsOk⟩

def scRegionErr : Scanner := ⟨s3RegionErr, macieCompleteEmpty, stsOk⟩

/-! ## Helper lemmas -/

/-- The loop-body grant test agrees with the claim-side grant predicate. -/
theorem grantIsPublic_iff (g : Grant) :
    grantIsPublic g = true ↔
      granteeURI g = some allUsersURI ∨ granteeURI g = some authenticatedUsersURI := by
  rcases g with ⟨_ | ⟨_ | uri⟩⟩ <;>
    simp [grantIsPublic, granteeURI, Option.bind]

/-! ## Claim theorems -/

/-- **C4.** For every bucket, `IsBucketPublic` returns false without
consulting ACL grants when the public-access-block call succeeds and all
four restriction flags read true (the short-circuit condition
`pabAllBlocked`); otherwise (including when the public-access-block call
errors) it consults the ACL, and when the ACL query succeeds it returns
true exactly when some grant's grantee URI is the AllUsers or
AuthenticatedUsers group identifier, and false when no such grant exists. -/
theorem IsBucketPublic_spec (c : S3Client) :
    (pabAllBlocked c = true → IsBucketPublic c = ((false, none), false)) ∧
    (pabAllBlocked c = false →
      (IsBucketPublic c).2 = true ∧
      ∀ acl, c.getBucketAcl = .ok acl →
        ((hasPublicGrant acl → (IsBucketPublic c).1 = (true, none)) ∧
         (¬ hasPublicGrant acl → (IsBucketPublic c).1 = (false, none)))) := by
  constructor
  · intro h
    simp [IsBucketPublic, h]
  · intro h
    constructor
    · unfold IsBucketPublic
      rw [h]
      cases c.getBucketAcl <;> simp
    · intro acl hacl
      constructor
      · intro hp
        obtain ⟨g, hg, hor⟩ := hp
        have hany : acl.grants.any grantIsPublic = true :=
          List.any_eq_true.mpr ⟨g, hg, (grantIsPublic_iff g).mpr hor⟩
        simp [IsBucketPublic, h, hacl, hany]
      · intro hp
        have hany : acl.grants.any grantIsPublic = false := by
          by_contra hne
          have := List.any_eq_true.mp (eq_true_of_ne_false hne)
          obtain ⟨g, hg, hgp⟩ := this
          exact hp ⟨g, hg, (grantIsPublic_iff g).mp hgp⟩
        simp [IsBucketPublic, h, hacl, hany]

/-- Witness for C4: a fully blocked bucket is reported not public without
an ACL query, and a non-blocked bucket with an AllUsers grant is public. -/
theorem IsBucketPublic_spec_witness :
    IsBucketPublic s3AllOk = ((false, none), false) ∧
    (IsBucketPublic s3PublicAcl).1 = (true, none) :=
  ⟨(IsBucketPublic_spec s3AllOk).1 (by decide),
   (((IsBucketPublic_spec s3PublicAcl).2 (by decide)).2 aclPublic rfl).1 (by decide)⟩

/-- **C5 counterexample.** The claim says a "no encryption configuration
found" error yields "Not Enabled" with no error surfaced to the audit. On
the code, `GetBucketEncryption` returns the error alongside "Not Enabled",
and `AuditBucket`'s body treats it as fatal: the audit of this concrete
bucket aborts at the encryption step. -/
theorem GetBucketEncryption_counterexample :
    (GetBucketEncryption s3PublicAcl).1 = "Not Enabled" ∧
    (GetBucketEncryption s3PublicAcl).2 ≠ none ∧
    auditBucketBody scPublicNoEnc "public-bucket" 0 2400 5 =
      .error ("Error: Unable to get encryption for bucket public-bucket: " ++ noEncError) := by
  refine ⟨rfl, by decide, rfl⟩

/-- **C5 amended.** For every bucket whose encryption-configuration call
errors (including the "no encryption configuration found" class),
`GetBucketEncryption` returns the pair `("Not Enabled", err)` — the error
is surfaced, not swallowed — and when the earlier region and public-access
checks succeed, `AuditBucket`'s body treats that error as fatal for the
bucket's audit, aborting with the logged bucket-qualified message. -/
theorem GetBucketEncryption_error_surfaced (c : S3Client) (e : GoError)
    (h : c.getBucketEncryption = .error e) :
    GetBucketEncryption c = ("Not Enabled", some e) ∧
    ∀ (mc : MacieClient) (st : STSClient) (bucketName : String)
      (nowUnix timeoutSec durNanos : Int),
      (GetBucketRegion c).2 = none → ((IsBucketPublic c).1).2 = none →
      auditBucketBody ⟨c, mc, st⟩ bucketName nowUnix timeoutSec durNanos =
        .error ("Error: Unable to get encryption for bucket " ++ bucketName ++ ": " ++ e) := by
  have henc : GetBucketEncryption c = ("Not Enabled", some e) := by
    simp [GetBucketEncryption, h]
  refine ⟨henc, ?_⟩
  intro mc st bucketName nowUnix timeoutSec durNanos hreg hpub
  unfold auditBucketBody
  rcases hr : GetBucketRegion c with ⟨reg, oe⟩
  rw [hr] at hreg
  simp only at hreg
  subst hreg
  rcases hp : (IsBucketPublic c).1 with ⟨pub, oe2⟩
  rw [hp] at hpub
  simp only at hpub
  subst hpub
  simp [henc]

/-- Witness for C5 amended: the public-bucket fixture, whose provider
errors with the "no encryption configuration found" message. -/
theorem GetBucketEncryption_error_surfaced_witness :
    GetBucketEncryption s3PublicAcl = ("Not Enabled", some noEncError) ∧
    auditBucketBody ⟨s3PublicAcl, macieComplete, stsOk⟩ "b" 0 2400 5 =
      .error ("Error: Unable to get encryption for bucket " ++ "b" ++ ": " ++ noEncError) :=
  ⟨(GetBucketEncryption_error_surfaced s3PublicAcl noEncError rfl).1,
   (GetBucketEncryption_error_surfaced s3PublicAcl noEncError rfl).2
     macieComplete stsOk "b" 0 2400 5 rfl rfl⟩

/-- **C6.** For every bucket, `GetBucketVersioning` returns "Enabled" iff
the provider-reported status is the exact literal "Enabled"; any other
status on a successful query yields `("Disabled", nil)`; a query error
yields "Unknown" together with the (non-nil) error. -/
theorem GetBucketVersioning_spec (c : S3Client) :
    (∀ out, c.getBucketVersioning = .ok out →
      ((GetBucketVersioning c = ("Enabled", none) ↔ out.status = "Enabled") ∧
       (out.status ≠ "Enabled" → GetBucketVersioning c = ("Disabled", none)))) ∧
    (∀ e, c.getBucketVersioning = .error e →
      GetBucketVersioning c = ("Unknown", some e) ∧
      (GetBucketVersioning c).2 ≠ none) := by
  constructor
  · intro out hout
    by_cases hs : out.status = "Enabled" <;>
      simp [GetBucketVersioning, hout, hs]
  · intro e he
    simp [GetBucketVersioning, he]

/-- Witness for C6: a bucket with status "Enabled", a bucket with empty
status, and a bucket whose versioning query fails. -/
theorem GetBucketVersioning_spec_witness :
    GetBucketVersioning s3AllOk = ("Enabled", none) ∧
    GetBucketVersioning s3PublicAcl = ("Disabled", none) ∧
    GetBucketVersioning s3VersErr = ("Unknown", some "ServiceUnavailable") :=
  ⟨((GetBucketVersioning_spec s3AllOk).1 ⟨"Enabled"⟩ rfl).1.mpr rfl,
   ((GetBucketVersioning_spec s3PublicAcl).1 ⟨""⟩ rfl).2 (by decide),
   ((GetBucketVersioning_spec s3VersErr).2 "ServiceUnavailable" rfl).1⟩

/-- **C7 counterexample.** The claim says every value that is not a
positive integer falls back to the 40-minute default; but "0" parses via
`strconv.Atoi`, so `GetMacieTimeout` returns a zero duration, not the
default. -/
theorem GetMacieTimeout_zero_counterexample :
    GetMacieTimeout "0" = 0 ∧ GetMacieTimeout "0" ≠ defaultMacieTimeoutSec := by
  decide

/-- **C7 amended.** `GetMacieTimeout` falls back to the 40-minute default
exactly for the absent (empty) or unparseable values; every value that
`strconv.Atoi` parses — including zero and negative integers — is returned
as that many minutes. -/
theorem GetMacieTimeout_spec (s : String) :
    ((s = "" ∨ goAtoi s = none) → GetMacieTimeout s = defaultMacieTimeoutSec) ∧
    (∀ n : Int, s ≠ "" → goAtoi s = some n → GetMacieTimeout s = n * 60) := by
  constructor
  · rintro (h | h)
    · simp [GetMacieTimeout, h]
    · by_cases hs : s = "" <;> simp [GetMacieTimeout, hs, h]
  · intro n hs hn
    simp [GetMacieTimeout, hs, hn]

/-- Witness for C7 amended: a parsed positive value, and an unparseable
value falling back to the default. -/
theorem GetMacieTimeout_spec_witness :
    GetMacieTimeout "60" = 60 * 60 ∧
    GetMacieTimeout "invalid" = defaultMacieTimeoutSec :=
  ⟨(GetMacieTimeout_spec "60").2 60 (by decide) (by decide),
   (GetMacieTimeout_spec "invalid").1 (Or.inr (by decide))⟩

/-! ## Poll-loop lemmas -/

/-- A status that always reads Running exhausts the tick budget: the loop
times out after issuing exactly `n` describe calls. -/
theorem pollLoopAux_all_running (describe : Nat → GoResult JobStatus)
    (h : ∀ i, describe i = .ok .running) :
    ∀ n k, pollLoopAux describe n k = .timedOut (k + n) := by
  intro n
  induction n with
  | zero => intro k; simp [pollLoopAux]
  | succ m ih =>
    intro k
    have harith : k + 1 + m = k + (m + 1) := by omega
    simp [pollLoopAux, h k, isFailedStatus, ih (k + 1), harith]

/-- If the first `j` polls report Running and poll `j` reports one of the
three failure statuses, and the tick budget covers poll `j`, the loop
stops with `jobFailed` right after that poll. -/
theorem pollLoopAux_failed (describe : Nat → GoResult JobStatus) :
    ∀ (j n k : Nat) (s : JobStatus),
      (∀ i, i < j → describe (k + i) = .ok .running) →
      describe (k + j) = .ok s → isFailedStatus s = true → j < n →
      pollLoopAux describe n k = .jobFailed (k + j + 1) := by
  intro j
  induction j with
  | zero =>
    intro n k s _ hk hs hn
    obtain ⟨m, rfl⟩ : ∃ m, n = m + 1 := ⟨n - 1, by omega⟩
    have hnc : s ≠ JobStatus.complete := by
      cases s <;> simp_all [isFailedStatus]
    simp only [Nat.add_zero] at hk
    simp [pollLoopAux, hk, hnc, hs]
  | succ j ih =>
    intro n k s hrun hk hs hn
    obtain ⟨m, rfl⟩ : ∃ m, n = m + 1 := ⟨n - 1, by omega⟩
    have h0 : describe k = .ok .running := by
      have := hrun 0 (Nat.succ_pos j)
      simpa using this
    have hrun' : ∀ i, i < j → describe (k + 1 + i) = .ok .running := by
      intro i hi
      have := hrun (i + 1) (by omega)
      have harith : k + (i + 1) = k + 1 + i := by omega
      rwa [harith] at this
    have hk' : describe (k + 1 + j) = .ok s := by
      have harith : k + (j + 1) = k + 1 + j := by omega
      rwa [harith] at hk
    have := ih m (k + 1) s hrun' hk' hs (by omega)
    have harith : k + 1 + j + 1 = k + (j + 1) + 1 := by omega
    rw [harith] at this
    simp [pollLoopAux, h0, isFailedStatus, this]

/-- **C1.** In every run of `checkSensitiveData` whose classification job
reaches status Complete, the client lists findings filtered by that job's
identifier; if zero finding IDs are returned the run returns
`(false, nil)`, and if one or more finding IDs are returned it fetches the
full finding details and (when that fetch succeeds) returns `(true, nil)`. -/
theorem checkSensitiveData_complete_findings
    (stsClient : STSClient) (macieClient : MacieClient) (bucketName : String)
    (nowUnix timeoutSec : Int) (accountId jobId : String) (polls : Nat)
    (hSts : stsClient.getCallerIdentity = .ok accountId)
    (hCreate : macieClient.createClassificationJob = .ok jobId)
    (hPoll : pollLoop timeoutSec (macieClient.describeClassificationJob jobId) =
      .completed polls) :
    CallEvent.listFindings jobId ∈
      (checkSensitiveData stsClient macieClient bucketName nowUnix timeoutSec).2 ∧
    (macieClient.listFindings jobId = .ok [] →
      (checkSensitiveData stsClient macieClient bucketName nowUnix timeoutSec).1 =
        (false, none)) ∧
    (∀ ids findings, macieClient.listFindings jobId = .ok ids → ids ≠ [] →
      macieClient.getFindings ids = .ok findings →
      (checkSensitiveData stsClient macieClient bucketName nowUnix timeoutSec).1 =
        (true, none) ∧
      CallEvent.getFindings ids ∈
        (checkSensitiveData stsClient macieClient bucketName nowUnix timeoutSec).2) := by
  unfold checkSensitiveData
  simp only [hSts, hCreate, hPoll]
  refine ⟨?_, ?_, ?_⟩
  · cases hL : macieClient.listFindings jobId with
    | error e => simp [hL]
    | ok ids =>
      by_cases hlen : ids.length = 0
      · simp [hL, hlen]
      · cases hG : macieClient.getFindings ids <;> simp [hL, hlen, hG]
  · intro hL
    simp [hL]
  · intro ids findings hL hne hG
    have hlen : ¬ ids.length = 0 := by simpa using hne
    simp [hL, hlen, hG]

/-- Witness for C1: a job that completes at the first poll with one
finding yields `(true, nil)` after listing findings for its job id. -/
theorem checkSensitiveData_complete_findings_witness :
    (checkSensitiveData stsOk macieComplete "b" 0 60).1 = (true, none) ∧
    CallEvent.listFindings "job-123" ∈ (checkSensitiveData stsOk macieComplete "b" 0 60).2 := by
  obtain ⟨hmem, -, hpos⟩ :=
    checkSensitiveData_complete_findings stsOk macieComplete "b" 0 60
      "123456789012" "job-123" 1 rfl rfl (by decide)
  exact ⟨(hpos ["f1"] [⟨"f1"⟩] rfl (by decide) rfl).1, hmem⟩

/-- **C2.** If the first poll whose status is not Running reports
UserPaused, Cancelled, or Paused (and it happens before the timeout),
`checkSensitiveData` returns `(false, JobFailedError)` immediately and the
findings-listing endpoint is never called on that run. -/
theorem checkSensitiveData_failed_status
    (stsClient : STSClient) (macieClient : MacieClient) (bucketName : String)
    (nowUnix timeoutSec : Int) (accountId jobId : String) (k : Nat) (s : JobStatus)
    (hSts : stsClient.getCallerIdentity = .ok accountId)
    (hCreate : macieClient.createClassificationJob = .ok jobId)
    (hrun : ∀ i, i < k → macieClient.describeClassificationJob jobId i = .ok .running)
    (hk : macieClient.describeClassificationJob jobId k = .ok s)
    (hs : isFailedStatus s = true)
    (hTime : k < maxPolls timeoutSec) :
    (checkSensitiveData stsClient macieClient bucketName nowUnix timeoutSec).1 =
      (false, some jobFailedMessage) ∧
    ∀ j, CallEvent.listFindings j ∉
      (checkSensitiveData stsClient macieClient bucketName nowUnix timeoutSec).2 := by
  have hPoll : pollLoop timeoutSec (macieClient.describeClassificationJob jobId) =
      .jobFailed (k + 1) := by
    have := pollLoopAux_failed (macieClient.describeClassificationJob jobId)
      k (maxPolls timeoutSec) 0 s (by simpa using hrun) (by simpa using hk) hs hTime
    simpa [pollLoop] using this
  unfold checkSensitiveData
  simp only [hSts, hCreate, hPoll]
  refine ⟨by simp, ?_⟩
  intro j
  simp [describeEvents]

/-- Witness for C2: a job cancelled at the first poll fails without any
findings listing. -/
theorem checkSensitiveData_failed_status_witness :
    (checkSensitiveData stsOk macieCancelled "b" 0 2400).1 =
      (false, some jobFailedMessage) ∧
    CallEvent.listFindings "job-123" ∉ (checkSensitiveData stsOk macieCancelled "b" 0 2400).2 := by
  obtain ⟨hres, hnot⟩ :=
    checkSensitiveData_failed_status stsOk macieCancelled "b" 0 2400
      "123456789012" "job-123" 0 .cancelled rfl rfl
      (fun i hi => absurd hi (Nat.not_lt_zero i)) rfl (by decide) (by decide)
  exact ⟨hres, hnot "job-123"⟩

/-- **C3 counterexample.** A job whose status stays Running past the
timeout makes `checkSensitiveData` return the timeout error, but the error
message is the fixed string of report.go line 182: it does not contain the
service-assigned job identifier ("job-123" here), contrary to the claim. -/
theorem checkSensitiveData_timeout_message_counterexample :
    ∃ e, (checkSensitiveData stsOk macieRunning "test-bucket" 0 90).1 = (false, some e) ∧
      containsSub "job-123" e = false :=
  ⟨timeoutErrorMessage, by decide, by decide⟩

/-- **C3 amended.** For every run in which the job status remains Running
until the configured timeout elapses, `checkSensitiveData` returns
`(false, JobTimeoutError)` whose message is the constant
"timeout waiting for Macie classification job completion"; the job id does
not appear in it. -/
theorem checkSensitiveData_timeout
    (stsClient : STSClient) (macieClient : MacieClient) (bucketName : String)
    (nowUnix timeoutSec : Int) (accountId jobId : String)
    (hSts : stsClient.getCallerIdentity = .ok accountId)
    (hCreate : macieClient.createClassificationJob = .ok jobId)
    (hrun : ∀ i, macieClient.describeClassificationJob jobId i = .ok .running) :
    (checkSensitiveData stsClient macieClient bucketName nowUnix timeoutSec).1 =
      (false, some timeoutErrorMessage) := by
  have hPoll : pollLoop timeoutSec (macieClient.describeClassificationJob jobId) =
      .timedOut (maxPolls timeoutSec) := by
    simpa [pollLoop] using
      pollLoopAux_all_running (macieClient.describeClassificationJob jobId) hrun
        (maxPolls timeoutSec) 0
  unfold checkSensitiveData
  simp only [hSts, hCreate, hPoll]

/-- Witness for C3 amended: an always-Running job with a 90-second budget
returns the constant timeout message. -/
theorem checkSensitiveData_timeout_witness :
    (checkSensitiveData stsOk macieRunning "b" 0 90).1 =
      (false, some timeoutErrorMessage) :=
  checkSensitiveData_timeout stsOk macieRunning "b" 0 90
    "123456789012" "job-123" rfl rfl (fun _ => rfl)

/-- **C10.** For every configured timeout strictly shorter than the fixed
30-second poll interval, `checkSensitiveData` submits the classification
job and then returns the timeout error with a call trace containing no
describe call at all: the job's status is never observed. -/
theorem checkSensitiveData_short_timeout_no_poll
    (stsClient : STSClient) (macieClient : MacieClient) (bucketName : String)
    (nowUnix timeoutSec : Int) (accountId jobId : String)
    (hSts : stsClient.getCallerIdentity = .ok accountId)
    (hCreate : macieClient.createClassificationJob = .ok jobId)
    (ht : timeoutSec < 30) :
    checkSensitiveData stsClient macieClient bucketName nowUnix timeoutSec =
      ((false, some timeoutErrorMessage),
       [.getCallerIdentity,
        .createClassificationJob (jobRequestName bucketName nowUnix)]) := by
  have hmp : maxPolls timeoutSec = 0 := by
    unfold maxPolls
    omega
  unfold checkSensitiveData pollLoop
  simp only [hSts, hCreate, hmp]
  simp [pollLoopAux, describeEvents]

/-- Witness for C10: `MACIE_JOB_TIMEOUT_MINUTES="0"` yields a zero
duration, so the audit gives up before the first status poll. -/
theorem checkSensitiveData_short_timeout_no_poll_witness :
    checkSensitiveData stsOk macieRunning "b" 7 (GetMacieTimeout "0") =
      ((false, some timeoutErrorMessage),
       [.getCallerIdentity, .createClassificationJob (jobRequestName "b" 7)]) :=
  checkSensitiveData_short_timeout_no_poll stsOk macieRunning "b" 7
    (GetMacieTimeout "0") "123456789012" "job-123" rfl rfl (by decide)

/-- **C8 (code bug).** At a concrete bucket whose region lookup is denied,
the goroutine body aborts with an error message carrying the bucket name
(the logged context), yet `AuditBucket` still returns `nil` to its
immediate caller — contradicting both the claim and the repository's own
API documentation ("Returns: error: Error if audit fails"). -/
theorem AuditBucket_swallows_check_error :
    (∃ pre post,
      auditBucketBody scRegionErr "test-bucket" 0 2400 5 =
        .error (pre ++ "test-bucket" ++ post) ∧
      containsSub "test-bucket" (pre ++ "test-bucket" ++ post) = true) ∧
    (AuditBucket scRegionErr "test-bucket" 0 2400 5).1 = none :=
  ⟨⟨"Error: Unable to get region for bucket ", ": AccessDenied: access denied",
    rfl, by decide⟩, rfl⟩

/-- The value component of `checkSensitiveData` does not depend on the
submission timestamp: the timestamp only enters the advisory request name,
which the service's responses do not depend on. -/
theorem checkSensitiveData_fst_time_invariant (stsClient : STSClient)
    (macieClient : MacieClient) (bucketName : String) (n1 n2 t : Int) :
    (checkSensitiveData stsClient macieClient bucketName n1 t).1 =
    (checkSensitiveData stsClient macieClient bucketName n2 t).1 := by
  cases hs : stsClient.getCallerIdentity with
  | error e => simp [checkSensitiveData, hs]
  | ok acc =>
    cases hc : macieClient.createClassificationJob with
    | error e => simp [checkSensitiveData, hs, hc]
    | ok jobId =>
      cases hp : pollLoop t (macieClient.describeClassificationJob jobId) with
      | timedOut polls => simp [checkSensitiveData, hs, hc, hp]
      | statusQueryError e polls => simp [checkSensitiveData, hs, hc, hp]
      | jobFailed polls => simp [checkSensitiveData, hs, hc, hp]
      | completed polls =>
        cases hl : macieClient.listFindings jobId with
        | error e => simp [checkSensitiveData, hs, hc, hp, hl]
        | ok ids =>
          by_cases hlen : ids.length = 0
          · simp [checkSensitiveData, hs, hc, hp, hl, hlen]
          · cases hg : macieClient.getFindings ids <;>
              simp [checkSensitiveData, hs, hc, hp, hl, hlen, hg]

/-- **C9.** Two sequential audits of the same bucket against unchanged
remote state (same client responses) that both produce a finalized record
produce `BucketInfo` values equal in every field except `auditDuration`. -/
theorem auditBucketBody_idempotent (s : Scanner) (bucketName : String)
    (n1 n2 t d1 d2 : Int) (r1 r2 : BucketInfo)
    (h1 : auditBucketBody s bucketName n1 t d1 = .ok r1)
    (h2 : auditBucketBody s bucketName n2 t d2 = .ok r2) :
    r2 = { r1 with auditDuration := r2.auditDuration } := by
  unfold auditBucketBody at h1 h2
  rw [checkSensitiveData_fst_time_invariant s.stsClient s.macieClient bucketName n2 n1 t] at h2
  rcases hr : GetBucketRegion s.s3Client with ⟨region, oe⟩
  rw [hr] at h1 h2
  cases oe with
  | some e => simp at h1
  | none =>
  rcases hp : (IsBucketPublic s.s3Client).1 with ⟨isPub, oe⟩
  rw [hp] at h1 h2
  cases oe with
  | some e => simp at h1
  | none =>
  rcases he : GetBucketEncryption s.s3Client with ⟨encryption, oe⟩
  rw [he] at h1 h2
  cases oe with
  | some e => simp at h1
  | none =>
  rcases hv : GetBucketVersioning s.s3Client with ⟨versioningStatus, oe⟩
  rw [hv] at h1 h2
  cases oe with
  | some e => simp at h1
  | none =>
  rcases hsd : (checkSensitiveData s.stsClient s.macieClient bucketName n1 t).1 with ⟨sd, oe⟩
  rw [hsd] at h1 h2
  cases oe with
  | some e => simp at h1
  | none =>
  dsimp only at h1 h2
  simp only [Except.ok.injEq] at h1 h2
  subst h1
  subst h2
  rfl

/-- Witness for C9: the locked-down fixture audited twice with different
durations agrees on every other field. -/
theorem auditBucketBody_idempotent_witness :
    ({ name := "b", region := "us-west-2", isPublic := false,
       encryption := "AES256", versioningStatus := "Enabled",
       sensitiveData := false, auditDuration := 7 } : BucketInfo) =
      { ({ name := "b", region := "us-west-2", isPublic := false,
           encryption := "AES256", versioningStatus := "Enabled",
           sensitiveData := false, auditDuration := 5 } : BucketInfo) with
        auditDuration := 7 } :=
  auditBucketBody_idempotent scAllOk "b" 1 2 2400 5 7 _ _ rfl rfl

end S3Auditor
